import Mathlib

/-!
Verification of the propagator registry module
(opentelemetry-api/src/opentelemetry/propagators/__init__.py).

The module keeps one process-wide mutable reference, the current global
text-map propagator.  At import time it reads a comma-separated list of
propagator names from configuration (default "tracecontext,baggage"),
resolves each name through the opentelemetry_propagator entry-point group,
instantiates each resolved class, and installs a composite propagator over
the resulting ordered list.  Module-level extract and inject delegate to
whatever the current global propagator is.

Stateful code is embedded by explicit state passing: the single global
variable _HTTP_TEXT_FORMAT becomes a one-field Registry record threaded
through the operations.  Fallible steps (entry-point lookup via next(),
loading and calling a constructor) are embedded with Except.
-/

namespace OTelPropagators

/-- A getter reads the ordered list of string values stored under a key in a
carrier; an absent key yields the empty list. -/
def Getter (C : Type) : Type := C → String → List String

/-- A setter writes one key-value pair into a carrier; the write is embedded
as returning the updated carrier. -/
def Setter (C : Type) : Type := C → String → String → C

/-- Modelled from the spec: the abstract text-map propagator contract
(opentelemetry.trace.propagation.textmap is imported by the module but its
file is not under src/).  A propagator declares its carrier fields, an
extract operation producing a context from a carrier, and an inject
operation writing a context into a carrier.  The context argument is
optional, matching the Python signatures. -/
structure TextMapPropagator (C X : Type) where
  extract : Getter C → C → Option X → X
  inject : Setter C → C → Option X → C
  fields : List String

/-- The composite propagator holds an ordered list of member propagators,
as built by CompositeHTTPPropagator(propagators) at the end of module
initialization. -/
structure CompositeHTTPPropagator (P : Type) where
  propagators : List P
  deriving DecidableEq

/-- Modelled from the spec: the composite extract
(opentelemetry.propagators.composite is imported by the module but its file
is not under src/).  Extract folds left-to-right over the member list; each
member receives the context produced by the previous member, and every
member returns a non-optional context. -/
def compositeExtract (c : CompositeHTTPPropagator (TextMapPropagator C X))
    (g : Getter C) (carrier : C) (context : Option X) : Option X :=
  c.propagators.foldl (fun ctx p => some (p.extract g carrier ctx)) context

/-- Modelled from the spec: the composite inject calls every member in
order against the same context; carrier writes accumulate through the
setter. -/
def compositeInject (c : CompositeHTTPPropagator (TextMapPropagator C X))
    (s : Setter C) (carrier : C) (context : Option X) : C :=
  c.propagators.foldl (fun car p => p.inject s car context) carrier

/-- The process-wide registry state: the single module-level variable
_HTTP_TEXT_FORMAT holding the current global propagator. -/
structure Registry (P : Type) where
  current : P
  deriving DecidableEq

/-- Embedding of get_global_textmap (source lines 145-146): it returns the
current global reference and performs no state change, so as a state
transformer it returns the pair of the current propagator and the
unchanged registry. -/
def get_global_textmap (r : Registry P) : P × Registry P :=
  (r.current, r)

/-- Embedding of set_global_textmap (source lines 149-151): it rebinds the
global _HTTP_TEXT_FORMAT to the given propagator and returns None. -/
def set_global_textmap (r : Registry P) (p : P) : Unit × Registry P :=
  ((), Registry.mk p)

/-- Embedding of the module-level extract (source lines 84-102): it calls
extract on the propagator returned by get_global_textmap, with the same
getter, carrier and optional context. -/
def extract (g : Getter C) (carrier : C) (context : Option X)
    (r : Registry (TextMapPropagator C X)) :
    X × Registry (TextMapPropagator C X) :=
  ((get_global_textmap r).1.extract g carrier context, (get_global_textmap r).2)

/-- Embedding of the module-level inject (source lines 105-121): it calls
inject on the propagator returned by get_global_textmap and returns None;
the carrier updated through the setter is the returned value here. -/
def inject (s : Setter C) (carrier : C) (context : Option X)
    (r : Registry (TextMapPropagator C X)) :
    C × Registry (TextMapPropagator C X) :=
  ((get_global_textmap r).1.inject s carrier context, (get_global_textmap r).2)

/-- Modelled from the spec: Configuration().get("PROPAGATORS", dflt)
(opentelemetry.configuration is imported by the module but its file is not
under src/).  It returns the configured value when one is present and the
given default otherwise. -/
def configurationGet (config : Option String) (dflt : String) : String :=
  config.getD dflt

/-- Splitting a character list at every occurrence of the separator,
keeping empty pieces; the empty list yields one empty piece. -/
def splitCharList (sep : Char) : List Char → List (List Char)
  | [] => [[]]
  | c :: cs =>
    match splitCharList sep cs with
    | [] => [[]]
    | w :: ws => if c = sep then [] :: w :: ws else (c :: w) :: ws

/-- Model of the Python str.split(sep) for a one-character separator, as
used by the source with sep = ",": the string is cut at every separator
occurrence, nothing is trimmed, empty pieces are kept, and the empty
string yields the single piece "". -/
def pySplit (sep : Char) (s : String) : List String :=
  (splitCharList sep s.data).map String.mk

/-- The ordered name list the initialization loop iterates over (source
lines 128-130): the configured value, defaulting to
"tracecontext,baggage", split on ",". -/
def configNames (config : Option String) : List String :=
  pySplit ',' (configurationGet config "tracecontext,baggage")

/-- One entry point of the opentelemetry_propagator group.  Loading the
entry point and calling the loaded class (ep.load()() in the source) can
each raise; the combined step is embedded as one Except. -/
structure EntryPoint (P : Type) where
  loadAndConstruct : Except String P

/-- An initialization failure: next() on an empty entry-point iterator
raises StopIteration, and loading or constructing an instance can raise. -/
inductive InitError where
  | stopIteration (name : String)
  | constructorFailed (name : String) (msg : String)
  deriving DecidableEq

/-- The message logged by the except branch (source line 139) before the
failure is re-raised. -/
def failLog : List String := ["Failed to load configured propagators"]

/-- The name fails during the loop body: either the entry-point lookup
finds no entry under the name, or the first found entry fails to load or
construct. -/
def entryFails (env : String → List (EntryPoint P)) (name : String) : Prop :=
  env name = [] ∨
    ∃ ep l, env name = ep :: l ∧ ∃ msg, ep.loadAndConstruct = Except.error msg

/-- Embedding of the initialization loop (source lines 126-136): for each
name in order, take the first entry point the lookup yields for that name
(next(iter_entry_points("opentelemetry_propagator", name))), load it and
call it, and append the instance; any failure aborts the whole loop. -/
def loadPropagators (env : String → List (EntryPoint P)) :
    List String → Except InitError (List P)
  | [] => Except.ok []
  | name :: rest =>
    match env name with
    | [] => Except.error (InitError.stopIteration name)
    | ep :: _ =>
      match ep.loadAndConstruct with
      | Except.error msg => Except.error (InitError.constructorFailed name msg)
      | Except.ok p =>
        match loadPropagators env rest with
        | Except.error e => Except.error e
        | Except.ok ps => Except.ok (p :: ps)

/-- Embedding of the module initialization (source lines 124-142): run the
loading loop over the configured names; on failure, log the message and
re-raise, so no global propagator is installed; on success, install the
composite over the loaded list as the initial global propagator. -/
def moduleInit (config : Option String) (env : String → List (EntryPoint P)) :
    List String × Except InitError (Registry (CompositeHTTPPropagator P)) :=
  match loadPropagators env (configNames config) with
  | Except.error e => (failLog, Except.error e)
  | Except.ok ps => ([], Except.ok (Registry.mk (CompositeHTTPPropagator.mk ps)))

/-- A concrete text-map propagator over Nat carriers and Nat contexts,
used to instantiate delegation statements: extract returns the given
context or zero, inject leaves the carrier untouched. -/
def sampleProp : TextMapPropagator Nat Nat :=
  TextMapPropagator.mk (fun _ _ ctx => ctx.getD 0) (fun _ car _ => car) ["k"]

/-! Shared helper lemmas about the loading loop. -/

/-- When every configured name resolves to a first entry whose load and
construction succeed, the loop returns the instances in input order. -/
theorem loadPropagators_map (env : String → List (EntryPoint P)) (f : String → P) :
    ∀ names : List String,
    (∀ n ∈ names, ∃ ep l, env n = ep :: l ∧ ep.loadAndConstruct = Except.ok (f n)) →
    loadPropagators env names = Except.ok (names.map f)
  | [], _ => rfl
  | name :: rest, h => by
    obtain ⟨ep, l, he, hok⟩ := h name (List.mem_cons_self name rest)
    have ih := loadPropagators_map env f rest
      (fun n hn => h n (List.mem_cons_of_mem name hn))
    simp [loadPropagators, he, hok, ih]

/-- When some configured name fails to resolve or construct, the loop as a
whole returns an error. -/
theorem loadPropagators_fails (env : String → List (EntryPoint P)) :
    ∀ names : List String,
    (∃ n ∈ names, entryFails env n) →
    ∃ e, loadPropagators env names = Except.error e
  | [], h => absurd h (by simp)
  | name :: rest, h => by
    rcases h with ⟨n, hn, hf⟩
    rcases List.mem_cons.mp hn with rfl | hn2
    · rcases hf with hempty | ⟨ep, l, he, msg, herr⟩
      · exact ⟨InitError.stopIteration n, by simp [loadPropagators, hempty]⟩
      · exact ⟨InitError.constructorFailed n msg, by simp [loadPropagators, he, herr]⟩
    · cases h1 : env name with
      | nil => exact ⟨InitError.stopIteration name, by simp [loadPropagators, h1]⟩
      | cons ep l =>
        cases h2 : ep.loadAndConstruct with
        | error msg =>
          exact ⟨InitError.constructorFailed name msg, by simp [loadPropagators, h1, h2]⟩
        | ok p =>
          obtain ⟨e, he⟩ := loadPropagators_fails env rest ⟨n, hn2, hf⟩
          exact ⟨e, by simp [loadPropagators, h1, h2, he]⟩

/-- The loop only ever looks at the first entry the lookup yields for each
name: two lookups agreeing on first entries give identical results. -/
theorem loadPropagators_head_congr (env env2 : String → List (EntryPoint P)) :
    ∀ names : List String,
    (∀ n ∈ names, (env n).head? = (env2 n).head?) →
    loadPropagators env names = loadPropagators env2 names
  | [], _ => rfl
  | name :: rest, h => by
    have hhead : (env name).head? = (env2 name).head? :=
      h name (List.mem_cons_self name rest)
    have ih := loadPropagators_head_congr env env2 rest
      (fun n hn => h n (List.mem_cons_of_mem name hn))
    cases h1 : env name with
    | nil =>
      cases h2 : env2 name with
      | nil => simp [loadPropagators, h1, h2]
      | cons ep2 l2 => rw [h1, h2] at hhead; simp at hhead
    | cons ep l =>
      cases h2 : env2 name with
      | nil => rw [h1, h2] at hhead; simp at hhead
      | cons ep2 l2 =>
        rw [h1, h2] at hhead
        simp only [List.head?] at hhead
        cases hhead
        simp [loadPropagators, h1, h2, ih]

/-- Folding composite extraction over members that each map a present
context to itself leaves the context unchanged. -/
theorem extract_foldl_fixed (g : Getter C) (carrier : C) :
    ∀ ms : List (TextMapPropagator C X),
    (∀ p ∈ ms, ∀ x : X, p.extract g carrier (some x) = x) →
    ∀ x0 : X,
    ms.foldl (fun ctx p => some (p.extract g carrier ctx)) (some x0) = some x0
  | [], _, _ => rfl
  | p :: rest, h, x0 => by
    simp only [List.foldl, h p (List.mem_cons_self p rest) x0]
    exact extract_foldl_fixed g carrier rest
      (fun q hq x => h q (List.mem_cons_of_mem p hq) x) x0

/-! Claim theorems. -/

/-- C1: Registry initialization is all-or-nothing: if any configured name
has no entry point or its first entry fails to load or construct, the
whole initialization fails — the failure is logged and re-raised, and no
composite propagator, partial or otherwise, is installed as the global
propagator. -/
theorem moduleInit_all_or_nothing (P : Type) (config : Option String)
    (env : String → List (EntryPoint P))
    (h : ∃ n ∈ configNames config, entryFails env n) :
    (moduleInit config env).1 = failLog ∧
    (∃ e, (moduleInit config env).2 = Except.error e) ∧
    ∀ r, (moduleInit config env).2 ≠ Except.ok r := by
  obtain ⟨e, he⟩ := loadPropagators_fails env (configNames config) h
  refine ⟨?_, ⟨e, ?_⟩, ?_⟩ <;> simp [moduleInit, he]

/-- C1 witness: with the name list "tracecontext,nosuch" and a lookup that
only knows "tracecontext", initialization logs the failure, returns an
error and installs no global registry. -/
theorem moduleInit_all_or_nothing_witness :
    (moduleInit (some "tracecontext,nosuch")
      (fun n => if n = "tracecontext"
        then [EntryPoint.mk (Except.ok (0 : Nat))] else [])).1 = failLog ∧
    (∃ e, (moduleInit (some "tracecontext,nosuch")
      (fun n => if n = "tracecontext"
        then [EntryPoint.mk (Except.ok (0 : Nat))] else [])).2 = Except.error e) ∧
    ∀ r, (moduleInit (some "tracecontext,nosuch")
      (fun n => if n = "tracecontext"
        then [EntryPoint.mk (Except.ok (0 : Nat))] else [])).2 ≠ Except.ok r :=
  moduleInit_all_or_nothing Nat (some "tracecontext,nosuch")
    (fun n => if n = "tracecontext"
      then [EntryPoint.mk (Except.ok (0 : Nat))] else [])
    ⟨"nosuch", by decide, Or.inl rfl⟩

/-- C2: after set_global_textmap(p), a get_global_textmap call returns
exactly p and leaves the registry unchanged, so every subsequent call also
returns p; the reference obtained before the swap is the old current
instance, which the swap does not touch. -/
theorem set_then_get_returns_exactly (P : Type) (r : Registry P) (p : P) :
    get_global_textmap (set_global_textmap r p).2 = (p, (set_global_textmap r p).2) ∧
    (get_global_textmap r).1 = r.current :=
  ⟨rfl, rfl⟩

/-- C3: on success, initialization resolves each configured name to its
first entry, constructs one instance per name, keeps input order, and
installs the composite over exactly that ordered list as the initial
global propagator. -/
theorem moduleInit_success_order (P : Type) (config : Option String)
    (env : String → List (EntryPoint P)) (f : String → P)
    (h : ∀ n ∈ configNames config,
      ∃ ep l, env n = ep :: l ∧ ep.loadAndConstruct = Except.ok (f n)) :
    moduleInit config env =
      ([], Except.ok (Registry.mk (CompositeHTTPPropagator.mk
        ((configNames config).map f)))) := by
  have hload := loadPropagators_map env f (configNames config) h
  simp [moduleInit, hload]

/-- C3 witness: with names "x,y" and a lookup sending each name to one
successful entry constructing the name itself, initialization installs the
composite over the two instances in configured order. -/
theorem moduleInit_success_order_witness :
    moduleInit (some "x,y") (fun n => [EntryPoint.mk (Except.ok n)]) =
      ([], Except.ok (Registry.mk (CompositeHTTPPropagator.mk ["x", "y"]))) :=
  (moduleInit_success_order String (some "x,y")
    (fun n => [EntryPoint.mk (Except.ok n)]) (fun n => n)
    (fun n _ => ⟨EntryPoint.mk (Except.ok n), [], rfl, rfl⟩)).trans (by rfl)

/-- C4: the module-level extract returns exactly what extract on the
propagator currently returned by get_global_textmap returns with the same
arguments, and the module-level inject performs exactly that propagator's
inject; both depend on the registry only through the current global
propagator, so neither uses any other propagator. -/
theorem extract_inject_delegate (C X : Type) (g : Getter C) (s : Setter C)
    (carrier : C) (context : Option X)
    (r r2 : Registry (TextMapPropagator C X))
    (h : (get_global_textmap r2).1 = (get_global_textmap r).1) :
    extract g carrier context r =
      ((get_global_textmap r).1.extract g carrier context, r) ∧
    inject s carrier context r =
      ((get_global_textmap r).1.inject s carrier context, r) ∧
    (extract g carrier context r2).1 = (extract g carrier context r).1 ∧
    (inject s carrier context r2).1 = (inject s carrier context r).1 := by
  have h2 : r2.current = r.current := h
  refine ⟨rfl, rfl, ?_, ?_⟩ <;> simp [extract, inject, get_global_textmap, h2]

/-- C4 witness: with a concrete registry holding sampleProp, the
module-level operations agree with the global propagator's own extract and
inject at concrete arguments. -/
theorem extract_inject_delegate_witness :
    extract (fun _ _ => []) 0 (some 1) (Registry.mk sampleProp) =
      ((get_global_textmap (Registry.mk sampleProp)).1.extract
        (fun _ _ => []) 0 (some 1), Registry.mk sampleProp) ∧
    inject (fun car _ _ => car) 0 (some 1) (Registry.mk sampleProp) =
      ((get_global_textmap (Registry.mk sampleProp)).1.inject
        (fun car _ _ => car) 0 (some 1), Registry.mk sampleProp) ∧
    (extract (fun _ _ => []) 0 (some 1) (Registry.mk sampleProp)).1 =
      (extract (fun _ _ => []) 0 (some 1) (Registry.mk sampleProp)).1 ∧
    (inject (fun car _ _ => car) 0 (some 1) (Registry.mk sampleProp)).1 =
      (inject (fun car _ _ => car) 0 (some 1) (Registry.mk sampleProp)).1 :=
  extract_inject_delegate Nat Nat (fun _ _ => []) (fun car _ _ => car)
    0 (some 1) (Registry.mk sampleProp) (Registry.mk sampleProp) rfl

/-- C5: with no explicit configuration value, initialization uses the
default "tracecontext,baggage", whose split is the two-element name list
with the trace-context name first, and on success the installed composite
has exactly those two members in that order. -/
theorem default_config_names (P : Type) (env : String → List (EntryPoint P))
    (f : String → P)
    (h : ∀ n ∈ configNames none,
      ∃ ep l, env n = ep :: l ∧ ep.loadAndConstruct = Except.ok (f n)) :
    configNames none = ["tracecontext", "baggage"] ∧
    moduleInit none env = ([], Except.ok (Registry.mk (CompositeHTTPPropagator.mk
      [f "tracecontext", f "baggage"]))) := by
  have hnames : configNames (none : Option String) = ["tracecontext", "baggage"] := by
    decide
  have hload := loadPropagators_map env f (configNames none) h
  rw [hnames] at hload
  refine ⟨hnames, ?_⟩
  simp [moduleInit, hnames, hload]

/-- C5 witness: with a lookup sending each name to one successful entry
constructing the name itself, default initialization installs the
composite over the trace-context instance followed by the baggage
instance. -/
theorem default_config_names_witness :
    configNames none = ["tracecontext", "baggage"] ∧
    moduleInit none (fun n => [EntryPoint.mk (Except.ok n)]) =
      ([], Except.ok (Registry.mk (CompositeHTTPPropagator.mk
        ["tracecontext", "baggage"]))) :=
  default_config_names String (fun n => [EntryPoint.mk (Except.ok n)])
    (fun n => n) (fun n _ => ⟨EntryPoint.mk (Except.ok n), [], rfl, rfl⟩)

/-- C6: get_global_textmap is a total pure read: for every registry state
it returns the current propagator reference and leaves the registry state
unchanged; being a total function of the state, it raises no error. -/
theorem get_global_total (P : Type) (r : Registry P) :
    get_global_textmap r = (r.current, r) :=
  rfl

/-- C7: over members that each tolerate all their fields being absent by
returning the input context unchanged, composite extraction of a carrier
holding no field of any member returns the input context itself. -/
theorem composite_extract_identity_on_miss (C X : Type)
    (members : List (TextMapPropagator C X)) (g : Getter C) (carrier : C)
    (ctx : X)
    (habsent : ∀ p ∈ members, ∀ k ∈ p.fields, g carrier k = [])
    (htol : ∀ p ∈ members, ∀ x : X,
      (∀ k ∈ p.fields, g carrier k = []) → p.extract g carrier (some x) = x) :
    compositeExtract (CompositeHTTPPropagator.mk members) g carrier (some ctx) =
      some ctx := by
  have hfix : ∀ p ∈ members, ∀ x : X, p.extract g carrier (some x) = x :=
    fun p hp x => htol p hp x (habsent p hp)
  exact extract_foldl_fixed g carrier members hfix ctx

/-- C7 witness: one stub member owning field "a", over a getter that finds
nothing: composite extraction returns the input context 5. -/
theorem composite_extract_identity_on_miss_witness :
    compositeExtract
      (CompositeHTTPPropagator.mk
        [TextMapPropagator.mk (fun _ _ ctx => ctx.getD 0) (fun _ car _ => car) ["a"]])
      (fun _ _ => []) () (some 5) = some 5 :=
  composite_extract_identity_on_miss Unit Nat
    [TextMapPropagator.mk (fun _ _ ctx => ctx.getD 0) (fun _ car _ => car) ["a"]]
    (fun _ _ => []) () 5
    (fun _ _ _ _ => rfl)
    (by
      intro p hp x hx
      rw [List.mem_singleton] at hp
      subst hp
      rfl)

/-- C8: the configured string is split on "," with no trimming and no
filtering: names keep surrounding spaces verbatim, and the empty
configuration string yields the single name "", whose lookup finds no
entry, failing the whole initialization. -/
theorem split_is_verbatim (P : Type) (env : String → List (EntryPoint P))
    (h : env "" = []) :
    configNames (some " tracecontext ,baggage") = [" tracecontext ", "baggage"] ∧
    configNames (some "") = [""] ∧
    moduleInit (some "") env =
      (failLog, Except.error (InitError.stopIteration "")) := by
  refine ⟨by decide, by decide, ?_⟩
  have h2 : configNames (some "") = [""] := by decide
  simp [moduleInit, h2, loadPropagators, h]

/-- C8 witness: with a lookup knowing no names at all, initialization of
the empty configuration string fails with a StopIteration on the name "". -/
theorem split_is_verbatim_witness :
    configNames (some " tracecontext ,baggage") = [" tracecontext ", "baggage"] ∧
    configNames (some "") = [""] ∧
    moduleInit (some "") (fun _ => ([] : List (EntryPoint Nat))) =
      (failLog, Except.error (InitError.stopIteration "")) :=
  split_is_verbatim Nat (fun _ => ([] : List (EntryPoint Nat))) rfl

/-- C9: only the first entry the lookup yields for each configured name is
loaded and instantiated: two lookups agreeing on first entries for every
configured name give identical initialization results, so entries after
the first are ignored. -/
theorem first_entry_point_wins (P : Type) (config : Option String)
    (env env2 : String → List (EntryPoint P))
    (h : ∀ n ∈ configNames config, (env n).head? = (env2 n).head?) :
    moduleInit config env = moduleInit config env2 := by
  unfold moduleInit
  rw [loadPropagators_head_congr env env2 (configNames config) h]

/-- C9 witness: a lookup with two entries under the name "a" initializes
identically to the lookup keeping only the first of them. -/
theorem first_entry_point_wins_witness :
    moduleInit (some "a")
      (fun _ => [EntryPoint.mk (Except.ok (1 : Nat)),
        EntryPoint.mk (Except.ok (2 : Nat))]) =
    moduleInit (some "a")
      (fun _ => [EntryPoint.mk (Except.ok (1 : Nat))]) :=
  first_entry_point_wins Nat (some "a")
    (fun _ => [EntryPoint.mk (Except.ok (1 : Nat)),
      EntryPoint.mk (Except.ok (2 : Nat))])
    (fun _ => [EntryPoint.mk (Except.ok (1 : Nat))])
    (fun _ _ => rfl)

/-- C10: set_global_textmap changes only the current-propagator reference:
the resulting state holds exactly the propagator passed in and the
registry has no other component, nothing is returned, any propagator value
is accepted, and the operation commutes with every reinterpretation of
propagator values, so it neither inspects, calls into, wraps nor modifies
the new or the old propagator. -/
theorem set_global_frame (P Q : Type) (f : P → Q) (r : Registry P) (p : P) :
    set_global_textmap r p = ((), Registry.mk p) ∧
    (set_global_textmap (Registry.mk (f r.current)) (f p)).2 =
      Registry.mk (f ((set_global_textmap r p).2.current)) :=
  ⟨rfl, rfl⟩

end OTelPropagators
